import Mathlib

/-!
Shallow embedding of the device-monitoring and volume-enforcement core of
micmaxer2 (src/main.go, src/unnamed/part_002, src/audio_darwin.go).

The Go core keeps one shared map `state.deviceStates : map[string]bool`
(deviceID -> monitored flag) guarded by a reader/writer mutex, plus the
startup snapshot `state.audioInputDevices`.  Every operation below is the
body of one Go function, with the external collaborators (Core Audio volume
setter, CFPreferences persistence) made explicit: volume-set calls become
`SetCall` records in the result, and success/failure of an external call is
an oracle parameter, because the Go code only ever logs such failures.
-/

/-- A `malgo.DeviceInfo` as the core consumes it: the stable id string
(`device.ID.String()`) and the display name (`device.Name()`). -/
structure Device where
  id : String
  name : String
deriving DecidableEq

/-- The Go map `deviceStates : map[string]bool` embedded as an association
list.  Key uniqueness (a Go map invariant) is stated separately as
`keysNodup`. -/
abbrev DeviceStates := List (String × Bool)

/-- Reading a Go map: a missing key yields the zero value `false`
(`state.deviceStates[id]`). -/
def mapGet (m : DeviceStates) (id : String) : Bool :=
  (m.lookup id).getD false

/-- Writing a Go map: overwrite the entry when the key is present, append it
otherwise. -/
def mapSet : DeviceStates → String → Bool → DeviceStates
  | [], id, v => [(id, v)]
  | (k, b) :: rest, id, v =>
      if k = id then (id, v) :: rest else (k, b) :: mapSet rest id v

/-- Go map keys are unique; every association list standing for
`state.deviceStates` satisfies this. -/
abbrev keysNodup (m : DeviceStates) : Prop :=
  (m.map Prod.fst).Nodup

/-- `targetVolumeLevel = 1.0` from src/main.go (the process-wide enforcement
target, 100%). -/
def targetVolumeLevel : ℚ := 1

/-- One `setSystemInputLevel` invocation observed at the VolumeController
boundary.  `forDevice` is the monitored id on whose behalf the call is made
(the Go code uses it only to look up a name for logging); `addressed` is the
device id actually handed to the volume setter, where `""` denotes the
system default input device (src/unnamed/part_002, `setSystemInputLevel`);
`level` is the requested volume scalar. -/
structure SetCall where
  forDevice : String
  addressed : String
  level : ℚ
deriving DecidableEq

/-- `hasSelectedDevice` from src/main.go lines 185-195: true iff some entry
of `deviceStates` is enabled. -/
def hasSelectedDevice (m : DeviceStates) : Bool :=
  m.any (fun p => p.2)

/-- `saveDeviceStates` from src/main.go lines 296-311: collect the ids whose
flag is `true` and hand them to the persistence gateway.  The returned list
is exactly the `checkedDeviceIDs` slice passed to `saveCheckedDevices`. -/
def saveDeviceStates (m : DeviceStates) : List String :=
  (m.filter (fun p => p.2)).map Prod.fst

/-- The CFPreferences store behind `saveCheckedDevices`
(src/unnamed/part_002 lines 563-592 and 797-818): an empty id list removes
the preference key, otherwise the array of ids is stored under the key. -/
def saveCheckedDevices (deviceIDs : List String) : Option (List String) :=
  if deviceIDs.isEmpty then none else some deviceIDs

/-- `loadCheckedDevices` (src/unnamed/part_002 lines 594-646 and 820-849):
a missing preference key loads as the empty list, otherwise the stored array
of ids is returned. -/
def loadCheckedDevices : Option (List String) → List String
  | none => []
  | some l => l

/-- The device-name lookup the enforcer performs for logging
(src/main.go lines 348-355): first device whose id matches, else
`"Unknown"`. -/
def lookupDeviceName (devices : List Device) (id : String) : String :=
  match devices.find? (fun d => d.id == id) with
  | some d => d.name
  | none => "Unknown"

/-- Result of one periodic-enforcer tick. -/
structure EnforceResult where
  deviceStates : DeviceStates
  setCalls : List SetCall
  loggedFailures : List String
deriving DecidableEq

/-- `enforceVolumeSettings` from src/main.go lines 342-372, one tick of the
periodic enforcer.  Under the read lock it copies the checked device ids
together with their display names; after releasing the lock it loops over
the copy and calls `setSystemInputLevel(targetVolumeLevel)` once per entry.
That call passes no device id, so on the darwin implementation
(src/unnamed/part_002) the set is addressed to the system default input
device, recorded here as `addressed := ""`.  `setOk` is the outcome oracle
for the call made on behalf of each id; a failure is only logged (by device
name), and the function never writes `deviceStates`. -/
def enforceVolumeSettings (devices : List Device) (m : DeviceStates)
    (setOk : String → Bool) : EnforceResult :=
  let checkedDevices := (m.filter (fun p => p.2)).map
    (fun p => (p.1, lookupDeviceName devices p.1))
  { deviceStates := m
    setCalls := checkedDevices.map
      (fun p => { forDevice := p.1, addressed := "", level := targetVolumeLevel })
    loggedFailures := (checkedDevices.filter (fun p => !(setOk p.1))).map Prod.snd }

/-- `goVolumeChangeCallback` from src/unnamed/part_002 lines 658-687, the
reactive corrector.  On a change event carrying `volumeFloat` and `isMuted`
it schedules one goroutine calling `setSystemInputLevel("", 1.0)` exactly
when `hasSelectedDevice() && volumeFloat < 1.0 && !isMuted`; otherwise it
only logs.  The returned list holds the scheduled corrective calls. -/
def goVolumeChangeCallback (m : DeviceStates) (volumeFloat : ℚ)
    (isMuted : Bool) : List SetCall :=
  if hasSelectedDevice m && decide (volumeFloat < 1) && !isMuted then
    [{ forDevice := "", addressed := "", level := 1 }]
  else []

/-- Result of one execution of the toggle click handler. -/
structure ToggleResult where
  deviceStates : DeviceStates
  newState : Bool
  savedIDs : List String
  levelQueries : List String
  setCalls : List SetCall
  loggedErrors : List String
deriving DecidableEq

/-- The toggle click handler from src/main.go lines 107-143.  Under the
write lock: `wasUnchecked := !deviceStates[id]; deviceStates[id] =
!deviceStates[id]; newState := deviceStates[id]`.  It then always calls
`saveDeviceStates()` (whose id list is recorded in `savedIDs`), and only
when `wasUnchecked && newState` it queries the audio level for `id` and
issues one `setSystemInputLevel(targetVolumeLevel)` call (again with no
device id, hence addressed to the default device).  `getLevelOk` and
`setOk` are the outcome oracles for those two external calls; either
failure is logged and nothing else happens. -/
def toggleHandler (m : DeviceStates) (id : String)
    (getLevelOk : Bool) (setOk : Bool) : ToggleResult :=
  let wasUnchecked := !(mapGet m id)
  let m2 := mapSet m id (!(mapGet m id))
  let newState := mapGet m2 id
  let savedIDs := saveDeviceStates m2
  if wasUnchecked && newState then
    { deviceStates := m2, newState := newState, savedIDs := savedIDs
      levelQueries := [id]
      setCalls := [{ forDevice := id, addressed := "", level := targetVolumeLevel }]
      loggedErrors :=
        (if getLevelOk then [] else ["Error getting audio level"]) ++
        (if setOk then [] else ["Error setting audio level"]) }
  else
    { deviceStates := m2, newState := newState, savedIDs := savedIDs
      levelQueries := [], setCalls := [], loggedErrors := [] }

/-- The restore loop of `loadAndApplyDeviceStates` from src/main.go lines
247-294: for each saved id, if some startup device has that id, mark it
checked and issue one `setSystemInputLevel(targetVolumeLevel)` call
(addressed, as everywhere in main.go, to the default device); a saved id
with no matching device is only logged and skipped. -/
def loadAndApplyDeviceStates (devices : List Device)
    (savedDeviceIDs : List String) (m : DeviceStates) :
    DeviceStates × List SetCall :=
  savedDeviceIDs.foldl
    (fun acc savedID =>
      if devices.any (fun d => d.id == savedID) then
        (mapSet acc.1 savedID true,
         acc.2 ++ [{ forDevice := savedID, addressed := "",
                     level := targetVolumeLevel }])
      else acc)
    (m, [])

/-- N sequential executions of the toggle handler on one id (the external
call outcomes do not affect the stored state, so they are fixed to
success). -/
def toggleIter (m : DeviceStates) (id : String) : Nat → DeviceStates
  | 0 => m
  | n + 1 => (toggleHandler (toggleIter m id n) id true true).deviceStates

/-- Go numeric conversion `int(x)` applied to a float: truncation toward
zero. -/
def goIntTrunc (q : ℚ) : Int :=
  if 0 ≤ q then ⌊q⌋ else ⌈q⌉

/-- The shared tail of `getSystemInputLevel` (src/audio_darwin.go lines
118-144 and src/unnamed/part_002 lines 719-757), parameterized by the two
values the Core Audio layer reports for the queried device: `volumeScalar`
(a reading in 0.0-1.0; any negative value encodes a failed read or a device
without volume control) and `muteState` (1 = muted, 0 = unmuted, negative =
read failure or no mute control).  A negative scalar is an error; a muted
device reads as 0; otherwise the scalar is scaled to 0-100, truncated, and
clamped into bounds. -/
def getSystemInputLevel (volumeScalar : ℚ) (muteState : Int) :
    Except String Int :=
  if volumeScalar < 0 then
    .error "failed to get input device volume (device may not support volume control)"
  else if muteState = 1 then
    .ok 0
  else
    let volumePercent := goIntTrunc (volumeScalar * 100)
    let volumePercent :=
      if volumePercent < 0 then 0
      else if volumePercent > 100 then 100
      else volumePercent
    .ok volumePercent

/-! ### Association-list lemmas for the embedded Go map -/

theorem mapGet_eq_true_iff_lookup (m : DeviceStates) (id : String) :
    mapGet m id = true ↔ m.lookup id = some true := by
  unfold mapGet
  cases h : m.lookup id with
  | none => simp
  | some b => cases b <;> simp

theorem mapGet_mapSet_self (m : DeviceStates) (id : String) (v : Bool) :
    mapGet (mapSet m id v) id = v := by
  induction m with
  | nil => simp [mapSet, mapGet]
  | cons p rest ih =>
    obtain ⟨k, b⟩ := p
    by_cases h : k = id
    · subst h
      simp [mapSet, mapGet, List.lookup_cons]
    · simpa [mapSet, mapGet, List.lookup_cons, h,
        beq_false_of_ne (Ne.symm h)] using ih

theorem mapGet_mapSet_ne (m : DeviceStates) (id j : String) (v : Bool)
    (h : j ≠ id) : mapGet (mapSet m id v) j = mapGet m j := by
  induction m with
  | nil => simp [mapSet, mapGet, List.lookup_cons, beq_false_of_ne h]
  | cons p rest ih =>
    obtain ⟨k, b⟩ := p
    by_cases hk : k = id
    · subst hk
      simp [mapSet, mapGet, List.lookup_cons, beq_false_of_ne h]
    · by_cases hkj : k = j
      · subst hkj
        simp [mapSet, mapGet, List.lookup_cons, hk]
      · simpa [mapSet, mapGet, List.lookup_cons, hk,
          beq_false_of_ne (Ne.symm hkj)] using ih

theorem mem_of_lookup_eq_some (m : DeviceStates) (k : String) (b : Bool)
    (h : m.lookup k = some b) : (k, b) ∈ m := by
  induction m with
  | nil => simp [List.lookup] at h
  | cons p rest ih =>
    obtain ⟨k', b'⟩ := p
    by_cases hk : k = k'
    · subst hk
      rw [List.lookup_cons] at h
      simp at h
      simp [h]
    · rw [List.lookup_cons] at h
      simp [beq_false_of_ne hk] at h
      exact List.mem_cons_of_mem _ (ih h)

theorem keysNodup_cons (k : String) (b : Bool) (rest : DeviceStates) :
    keysNodup ((k, b) :: rest) ↔ k ∉ rest.map Prod.fst ∧ keysNodup rest := by
  simp [keysNodup]

theorem lookup_eq_some_of_mem (m : DeviceStates) (k : String) (b : Bool)
    (hnd : keysNodup m) (hmem : (k, b) ∈ m) : m.lookup k = some b := by
  induction m with
  | nil => simp at hmem
  | cons p rest ih =>
    obtain ⟨k', b'⟩ := p
    rw [keysNodup_cons] at hnd
    rcases List.mem_cons.mp hmem with h | h
    · obtain ⟨rfl, rfl⟩ := Prod.mk.injEq .. ▸ h
      simp [List.lookup_cons]
    · by_cases hk : k = k'
      · subst hk
        exact absurd (List.mem_map.mpr ⟨(k, b), h, rfl⟩) hnd.1
      · rw [List.lookup_cons]
        simp only [beq_false_of_ne hk]
        exact ih hnd.2 h

theorem mem_keys_mapSet (m : DeviceStates) (id j : String) (v : Bool)
    (h : j ∈ (mapSet m id v).map Prod.fst) :
    j ∈ m.map Prod.fst ∨ j = id := by
  induction m with
  | nil => simpa [mapSet] using h
  | cons p rest ih =>
    obtain ⟨k, b⟩ := p
    by_cases hk : k = id
    · subst hk
      simp [mapSet] at h ⊢
      tauto
    · simp only [mapSet, hk, if_false, List.map_cons, List.mem_cons] at h ⊢
      rcases h with h | h
      · exact Or.inl (Or.inl h)
      · rcases ih h with h' | h'
        · exact Or.inl (Or.inr h')
        · exact Or.inr h'

theorem keysNodup_mapSet (m : DeviceStates) (id : String) (v : Bool)
    (hnd : keysNodup m) : keysNodup (mapSet m id v) := by
  induction m with
  | nil => simp [mapSet, keysNodup]
  | cons p rest ih =>
    obtain ⟨k, b⟩ := p
    rw [keysNodup_cons] at hnd
    by_cases hk : k = id
    · subst hk
      simp only [mapSet, if_pos rfl]
      exact (keysNodup_cons ..).mpr hnd
    · simp only [mapSet, hk, if_false]
      rw [keysNodup_cons]
      refine ⟨fun hmem => ?_, ih hnd.2⟩
      rcases mem_keys_mapSet rest id k v hmem with h' | h'
      · exact hnd.1 h'
      · exact hk h'

theorem mem_saveDeviceStates_sub (m : DeviceStates) (j : String)
    (h : j ∈ saveDeviceStates m) : j ∈ m.map Prod.fst := by
  simp only [saveDeviceStates, List.mem_map, List.mem_filter] at h
  obtain ⟨p, ⟨hp, _⟩, rfl⟩ := h
  exact List.mem_map.mpr ⟨p, hp, rfl⟩

theorem mem_saveDeviceStates (m : DeviceStates) (j : String)
    (hnd : keysNodup m) : j ∈ saveDeviceStates m ↔ mapGet m j = true := by
  constructor
  · intro h
    simp only [saveDeviceStates, List.mem_map, List.mem_filter] at h
    obtain ⟨⟨k, b⟩, ⟨hp, hb⟩, rfl⟩ := h
    simp only at hb
    subst hb
    rw [mapGet_eq_true_iff_lookup]
    exact lookup_eq_some_of_mem m k true hnd hp
  · intro h
    rw [mapGet_eq_true_iff_lookup] at h
    have hmem := mem_of_lookup_eq_some m j true h
    exact List.mem_map.mpr ⟨(j, true), List.mem_filter.mpr ⟨hmem, rfl⟩, rfl⟩

theorem hasSelectedDevice_iff (m : DeviceStates) (hnd : keysNodup m) :
    hasSelectedDevice m = true ↔ ∃ id, mapGet m id = true := by
  constructor
  · intro h
    simp only [hasSelectedDevice, List.any_eq_true] at h
    obtain ⟨⟨k, b⟩, hp, hb⟩ := h
    simp only at hb
    subst hb
    exact ⟨k, (mapGet_eq_true_iff_lookup ..).mpr
      (lookup_eq_some_of_mem m k true hnd hp)⟩
  · rintro ⟨id, h⟩
    rw [mapGet_eq_true_iff_lookup] at h
    exact List.any_eq_true.mpr
      ⟨(id, true), mem_of_lookup_eq_some m id true h, rfl⟩

/-! ### Toggle handler projections -/

theorem toggleHandler_deviceStates (m : DeviceStates) (id : String)
    (g o : Bool) :
    (toggleHandler m id g o).deviceStates = mapSet m id (!(mapGet m id)) := by
  cases hmg : mapGet m id <;>
    simp [toggleHandler, hmg, mapGet_mapSet_self]

theorem toggleHandler_newState (m : DeviceStates) (id : String) (g o : Bool) :
    (toggleHandler m id g o).newState = !(mapGet m id) := by
  cases hmg : mapGet m id <;>
    simp [toggleHandler, hmg, mapGet_mapSet_self]

theorem toggleHandler_savedIDs (m : DeviceStates) (id : String) (g o : Bool) :
    (toggleHandler m id g o).savedIDs =
      saveDeviceStates (mapSet m id (!(mapGet m id))) := by
  cases hmg : mapGet m id <;>
    simp [toggleHandler, hmg, mapGet_mapSet_self]

theorem toggleHandler_setCalls (m : DeviceStates) (id : String) (g o : Bool) :
    (toggleHandler m id g o).setCalls =
      if mapGet m id = true then []
      else [{ forDevice := id, addressed := "", level := targetVolumeLevel }] := by
  cases hmg : mapGet m id <;>
    simp [toggleHandler, hmg, mapGet_mapSet_self]

/-! ### Claims about the toggle path -/

/-- C3: the toggle click handler is a read-flip-write on the store: on an id
unknown to `deviceStates` the first call reads the zero value false and
flips it, reporting `newState = true`, and N sequential toggle calls
starting from an unknown id leave the monitored flag equal to (N is odd).
Mutual exclusion of the read-flip-write (the Go code holds `state.mu` across
it) is what the sequential embedding presumes. -/
theorem toggle_read_flip_write_parity (m : DeviceStates) (id : String)
    (h : m.lookup id = none) (N : Nat) :
    (toggleHandler m id true true).newState = true ∧
    mapGet (toggleIter m id N) id = decide (N % 2 = 1) := by
  have hm : mapGet m id = false := by simp [mapGet, h]
  constructor
  · rw [toggleHandler_newState, hm]
    rfl
  · induction N with
    | zero => simpa [toggleIter] using hm
    | succ n ih =>
      have hstep : toggleIter m id (n + 1) =
          (toggleHandler (toggleIter m id n) id true true).deviceStates := rfl
      rw [hstep, toggleHandler_deviceStates, mapGet_mapSet_self, ih]
      rcases Nat.mod_two_eq_zero_or_one n with h3 | h3
      · have h4 : (n + 1) % 2 = 1 := by omega
        simp [h3, h4]
      · have h4 : (n + 1) % 2 = 0 := by omega
        simp [h3, h4]

/-- Witness for C3 at a concrete store and N = 3. -/
theorem toggle_read_flip_write_parity_witness :
    ([("B", true)] : DeviceStates).lookup "A" = none ∧
    ((toggleHandler [("B", true)] "A" true true).newState = true ∧
     mapGet (toggleIter [("B", true)] "A" 3) "A" = decide (3 % 2 = 1)) :=
  ⟨by decide, toggle_read_flip_write_parity [("B", true)] "A" (by decide) 3⟩

/-- C8: no failure of the external calls made during a toggle rolls back the
store or aborts the toggle: for every outcome of the level query and the
volume set, the stored flag ends up equal to the flipped value, and the
resulting store, reported new state, and saved id list are identical across
all oracle outcomes (failures only add log entries). -/
theorem toggle_no_rollback (m : DeviceStates) (id : String)
    (g o g' o' : Bool) :
    mapGet (toggleHandler m id g o).deviceStates id = !(mapGet m id) ∧
    (toggleHandler m id g o).deviceStates =
      (toggleHandler m id g' o').deviceStates ∧
    (toggleHandler m id g o).newState = (toggleHandler m id g' o').newState ∧
    (toggleHandler m id g o).savedIDs = (toggleHandler m id g' o').savedIDs := by
  refine ⟨?_, ?_, ?_, ?_⟩
  · rw [toggleHandler_deviceStates, mapGet_mapSet_self]
  · rw [toggleHandler_deviceStates, toggleHandler_deviceStates]
  · rw [toggleHandler_newState, toggleHandler_newState]
  · rw [toggleHandler_savedIDs, toggleHandler_savedIDs]

/-- C4: every toggle triggers a Save whose id list is exactly the monitored
set after the flip, and exactly on a false→true transition the handler
issues one immediate volume-set call with the target volume; on a
true→false transition it issues none. -/
theorem toggle_save_and_set (m : DeviceStates) (id : String) (g o : Bool)
    (hnd : keysNodup m) :
    ((toggleHandler m id g o).savedIDs =
        saveDeviceStates (toggleHandler m id g o).deviceStates) ∧
    (∀ j, j ∈ (toggleHandler m id g o).savedIDs ↔
        mapGet (toggleHandler m id g o).deviceStates j = true) ∧
    (mapGet m id = false →
      (toggleHandler m id g o).setCalls =
        [{ forDevice := id, addressed := "", level := targetVolumeLevel }]) ∧
    (mapGet m id = true → (toggleHandler m id g o).setCalls = []) := by
  refine ⟨?_, ?_, ?_, ?_⟩
  · rw [toggleHandler_savedIDs, toggleHandler_deviceStates]
  · intro j
    rw [toggleHandler_savedIDs, toggleHandler_deviceStates]
    exact mem_saveDeviceStates _ j (keysNodup_mapSet m id _ hnd)
  · intro h
    rw [toggleHandler_setCalls, h]
    simp
  · intro h
    rw [toggleHandler_setCalls, h]
    simp

/-- Witness for C4: a false→true toggle on a concrete store issues exactly
one set call at the target volume. -/
theorem toggle_save_and_set_witness :
    keysNodup [("A", false)] ∧
    mapGet [("A", false)] "A" = false ∧
    (toggleHandler [("A", false)] "A" true true).setCalls =
      [{ forDevice := "A", addressed := "", level := targetVolumeLevel }] :=
  ⟨by decide, by decide,
    (toggle_save_and_set [("A", false)] "A" true true
      (by decide)).2.2.1 (by decide)⟩

/-! ### Periodic enforcer -/

theorem enforce_setCalls_forDevice (devices : List Device) (m : DeviceStates)
    (setOk : String → Bool) :
    (enforceVolumeSettings devices m setOk).setCalls.map SetCall.forDevice =
      (m.filter (fun p => p.2)).map Prod.fst := by
  simp [enforceVolumeSettings, List.map_map, Function.comp]

/-- C9: a tick executed while the snapshot of monitored ids is empty issues
zero volume-set calls, logs no failures, and leaves the store exactly as it
was. -/
theorem enforce_empty_snapshot (devices : List Device) (m : DeviceStates)
    (setOk : String → Bool) (hnd : keysNodup m)
    (h : ∀ id, mapGet m id = false) :
    (enforceVolumeSettings devices m setOk).setCalls = [] ∧
    (enforceVolumeSettings devices m setOk).loggedFailures = [] ∧
    (enforceVolumeSettings devices m setOk).deviceStates = m := by
  have hfilter : m.filter (fun p => p.2) = [] := by
    rw [List.filter_eq_nil_iff]
    rintro ⟨k, b⟩ hp
    cases b
    · simp
    · have := lookup_eq_some_of_mem m k true hnd hp
      have hk := h k
      rw [mapGet, this] at hk
      simp at hk
  refine ⟨?_, ?_, rfl⟩ <;> simp [enforceVolumeSettings, hfilter]

/-- Witness for C9 at a concrete store holding only unchecked entries. -/
theorem enforce_empty_snapshot_witness :
    keysNodup [("A", false)] ∧
    (∀ id, mapGet [("A", false)] id = false) ∧
    (enforceVolumeSettings [{ id := "A", name := "Mic A" }] [("A", false)]
        (fun _ => true)).setCalls = [] :=
  ⟨by decide, fun id => by simp [mapGet, List.lookup_cons]; split <;> rfl,
    (enforce_empty_snapshot [{ id := "A", name := "Mic A" }] [("A", false)]
      (fun _ => true) (by decide)
      (fun id => by simp [mapGet, List.lookup_cons]; split <;> rfl)).1⟩

/-- C6: per-device failure isolation within one tick.  If the set call made
on behalf of monitored device A fails, the call on behalf of monitored
device B is still attempted; A's failure is logged under A's display name;
and the list of attempted calls does not depend on the failure oracle at
all (failures are logged values, never thrown). -/
theorem enforce_failure_isolation (devices : List Device) (m : DeviceStates)
    (setOk : String → Bool) (A B : String)
    (hA : mapGet m A = true) (hB : mapGet m B = true)
    (hfail : setOk A = false) :
    B ∈ (enforceVolumeSettings devices m setOk).setCalls.map
        SetCall.forDevice ∧
    lookupDeviceName devices A ∈
      (enforceVolumeSettings devices m setOk).loggedFailures ∧
    ∀ setOkOther, (enforceVolumeSettings devices m setOkOther).setCalls =
      (enforceVolumeSettings devices m setOk).setCalls := by
  rw [mapGet_eq_true_iff_lookup] at hA hB
  have hAmem := mem_of_lookup_eq_some m A true hA
  have hBmem := mem_of_lookup_eq_some m B true hB
  refine ⟨?_, ?_, fun setOkOther => rfl⟩
  · rw [enforce_setCalls_forDevice]
    exact List.mem_map.mpr ⟨(B, true), List.mem_filter.mpr ⟨hBmem, rfl⟩, rfl⟩
  · show lookupDeviceName devices A ∈
      (((m.filter (fun p => p.2)).map
        (fun p => (p.1, lookupDeviceName devices p.1))).filter
        (fun p => !(setOk p.1))).map Prod.snd
    refine List.mem_map.mpr ⟨(A, lookupDeviceName devices A), ?_, rfl⟩
    refine List.mem_filter.mpr ⟨?_, by simp [hfail]⟩
    exact List.mem_map.mpr ⟨(A, true), List.mem_filter.mpr ⟨hAmem, rfl⟩, rfl⟩

/-- Witness for C6 over the monitored set {"A", "B"} with A's call
failing. -/
theorem enforce_failure_isolation_witness :
    mapGet [("A", true), ("B", true)] "A" = true ∧
    mapGet [("A", true), ("B", true)] "B" = true ∧
    (fun s => s == "B") "A" = false ∧
    "B" ∈ (enforceVolumeSettings
        [{ id := "A", name := "Mic A" }, { id := "B", name := "Mic B" }]
        [("A", true), ("B", true)] (fun s => s == "B")).setCalls.map
        SetCall.forDevice :=
  ⟨by decide, by decide, by decide,
    (enforce_failure_isolation
      [{ id := "A", name := "Mic A" }, { id := "B", name := "Mic B" }]
      [("A", true), ("B", true)] (fun s => s == "B") "A" "B"
      (by decide) (by decide) (by decide)).1⟩

/-- C1 (amended): on every tick the enforcer snapshots the monitored ids
and issues exactly one volume-set call on behalf of each monitored id, but
every one of those calls is addressed to the system default input device
(id "") with the target volume: the monitored id itself is never passed to
the volume setter (it only selects the device name used in the log line). -/
theorem enforce_per_tick_calls (devices : List Device) (m : DeviceStates)
    (setOk : String → Bool) (hnd : keysNodup m) :
    ((enforceVolumeSettings devices m setOk).setCalls.map SetCall.forDevice =
      (m.filter (fun p => p.2)).map Prod.fst) ∧
    (∀ j, j ∈ (enforceVolumeSettings devices m setOk).setCalls.map
        SetCall.forDevice ↔ mapGet m j = true) ∧
    (∀ c ∈ (enforceVolumeSettings devices m setOk).setCalls,
      c.addressed = "" ∧ c.level = targetVolumeLevel) := by
  refine ⟨enforce_setCalls_forDevice devices m setOk, ?_, ?_⟩
  · intro j
    rw [enforce_setCalls_forDevice]
    exact mem_saveDeviceStates m j hnd
  · intro c hc
    simp only [enforceVolumeSettings, List.map_map, List.mem_map,
      Function.comp] at hc
    obtain ⟨p, _, rfl⟩ := hc
    exact ⟨rfl, rfl⟩

/-- Witness for the amended C1 over the monitored set {"A"}. -/
theorem enforce_per_tick_calls_witness :
    keysNodup [("A", true)] ∧
    (enforceVolumeSettings [{ id := "A", name := "Mic A" }] [("A", true)]
        (fun _ => true)).setCalls.map SetCall.forDevice =
      ([("A", true)].filter (fun p => p.2)).map Prod.fst :=
  ⟨by decide,
    (enforce_per_tick_calls [{ id := "A", name := "Mic A" }] [("A", true)]
      (fun _ => true) (by decide)).1⟩

/-- Counterexample to C1 as stated: over the monitored set {"A"} (with "A"
in the startup registry) the claim calls for one set call whose addressed
device id is "A"; the tick's single call is instead addressed to "" (the
system default input device). -/
theorem enforce_not_addressed_to_monitored_id :
    ¬ ((enforceVolumeSettings [{ id := "A", name := "Mic A" }] [("A", true)]
        (fun _ => true)).setCalls.map SetCall.addressed = ["A"]) ∧
    (enforceVolumeSettings [{ id := "A", name := "Mic A" }] [("A", true)]
        (fun _ => true)).setCalls =
      [{ forDevice := "A", addressed := "", level := targetVolumeLevel }] := by
  constructor
  · decide
  · decide

/-! ### Reactive corrector -/

theorem goVolumeChangeCallback_cond (m : DeviceStates) (v : ℚ)
    (isMuted : Bool) (hnd : keysNodup m) :
    (hasSelectedDevice m && decide (v < 1) && !isMuted) = true ↔
      ((∃ id, mapGet m id = true) ∧ isMuted = false ∧
        v < targetVolumeLevel) := by
  simp only [Bool.and_eq_true, decide_eq_true_eq, Bool.not_eq_true',
    hasSelectedDevice_iff m hnd, targetVolumeLevel]
  tauto

/-- C2: on each change event, exactly one corrective set call — addressed to
the default input device, at the target volume — is scheduled iff the
monitored set is non-empty, the event is not muted, and the reported volume
scalar is strictly below the target; in every other case nothing is
scheduled. -/
theorem change_event_corrective_call (m : DeviceStates) (v : ℚ)
    (isMuted : Bool) (hnd : keysNodup m) :
    (goVolumeChangeCallback m v isMuted =
        [{ forDevice := "", addressed := "", level := targetVolumeLevel }] ↔
      ((∃ id, mapGet m id = true) ∧ isMuted = false ∧
        v < targetVolumeLevel)) ∧
    (¬ ((∃ id, mapGet m id = true) ∧ isMuted = false ∧
        v < targetVolumeLevel) →
      goVolumeChangeCallback m v isMuted = []) := by
  have hcond := goVolumeChangeCallback_cond m v isMuted hnd
  constructor
  · constructor
    · intro h
      by_cases hb : (hasSelectedDevice m && decide (v < 1) && !isMuted) = true
      · exact hcond.mp hb
      · rw [goVolumeChangeCallback, if_neg hb] at h
        exact absurd h (by simp)
    · intro hx
      rw [goVolumeChangeCallback, if_pos (hcond.mpr hx)]
      simp [targetVolumeLevel]
  · intro hn
    have hb : ¬ (hasSelectedDevice m && decide (v < 1) && !isMuted) = true :=
      fun hx => hn (hcond.mp hx)
    rw [goVolumeChangeCallback, if_neg hb]

/-- Witness for C2: a 50% unmuted event with "A" monitored schedules the
single corrective call. -/
theorem change_event_corrective_call_witness :
    keysNodup [("A", true)] ∧
    (goVolumeChangeCallback [("A", true)] (1/2) false =
        [{ forDevice := "", addressed := "", level := targetVolumeLevel }] ↔
      ((∃ id, mapGet [("A", true)] id = true) ∧ false = false ∧
        (1/2 : ℚ) < targetVolumeLevel)) :=
  ⟨by decide,
    (change_event_corrective_call [("A", true)] (1/2) false (by decide)).1⟩

/-! ### Restore and persistence round trip -/

theorem restore_fold_fst (devices : List Device) (ids : List String)
    (p : DeviceStates × List SetCall) :
    (ids.foldl (fun acc savedID =>
      if devices.any (fun d => d.id == savedID) then
        (mapSet acc.1 savedID true,
         acc.2 ++ [{ forDevice := savedID, addressed := "",
                     level := targetVolumeLevel }])
      else acc) p).1 =
    ids.foldl (fun s savedID =>
      if devices.any (fun d => d.id == savedID) then mapSet s savedID true
      else s) p.1 := by
  induction ids generalizing p with
  | nil => rfl
  | cons x xs ih =>
    simp only [List.foldl_cons]
    by_cases hx : devices.any (fun d => d.id == x) = true
    · rw [if_pos hx, if_pos hx]
      exact ih _
    · rw [if_neg hx, if_neg hx]
      exact ih _

theorem loadAndApply_fst (devices : List Device) (ids : List String)
    (m : DeviceStates) :
    (loadAndApplyDeviceStates devices ids m).1 =
      ids.foldl (fun s savedID =>
        if devices.any (fun d => d.id == savedID) then mapSet s savedID true
        else s) m :=
  restore_fold_fst devices ids (m, [])

theorem restore_mapGet (devices : List Device) (ids : List String)
    (m : DeviceStates) (j : String) :
    mapGet (loadAndApplyDeviceStates devices ids m).1 j =
      if j ∈ ids ∧ devices.any (fun d => d.id == j) = true then true
      else mapGet m j := by
  rw [loadAndApply_fst]
  induction ids generalizing m with
  | nil => simp
  | cons x xs ih =>
    simp only [List.foldl_cons]
    by_cases hx : devices.any (fun d => d.id == x) = true
    · rw [if_pos hx, ih]
      by_cases hj : j ∈ xs ∧ devices.any (fun d => d.id == j) = true
      · rw [if_pos hj, if_pos ⟨List.mem_cons_of_mem x hj.1, hj.2⟩]
      · rw [if_neg hj]
        by_cases hjx : j = x
        · subst hjx
          rw [mapGet_mapSet_self, if_pos ⟨List.mem_cons_self j xs, hx⟩]
        · rw [mapGet_mapSet_ne m x j true hjx, if_neg ?hcontra]
          case hcontra =>
            rintro ⟨hmem, hany⟩
            rcases List.mem_cons.mp hmem with h | h
            · exact hjx h
            · exact hj ⟨h, hany⟩
    · rw [if_neg hx, ih]
      by_cases hj : j ∈ xs ∧ devices.any (fun d => d.id == j) = true
      · rw [if_pos hj, if_pos ⟨List.mem_cons_of_mem x hj.1, hj.2⟩]
      · rw [if_neg hj, if_neg ?hcontra2]
        case hcontra2 =>
          rintro ⟨hmem, hany⟩
          rcases List.mem_cons.mp hmem with h | h
          · subst h
            exact hx hany
          · exact hj ⟨h, hany⟩

/-- C7: the restore loop marks monitored exactly those persisted ids that
are present in the startup device registry and silently skips the rest
(the loop is total: nothing is raised).  Concretely, restoring ["X","Y"] on
a fresh store when only "X" exists in the registry gives Get("X") = true
and Get("Y") = false. -/
theorem restore_marks_known_ids (devices : List Device) (ids : List String)
    (m : DeviceStates) :
    (∀ j, j ∈ ids → devices.any (fun d => d.id == j) = true →
      mapGet (loadAndApplyDeviceStates devices ids m).1 j = true) ∧
    (∀ j, devices.any (fun d => d.id == j) = false →
      mapGet (loadAndApplyDeviceStates devices ids m).1 j = mapGet m j) ∧
    (mapGet (loadAndApplyDeviceStates [{ id := "X", name := "Mic X" }]
        ["X", "Y"] []).1 "X" = true ∧
     mapGet (loadAndApplyDeviceStates [{ id := "X", name := "Mic X" }]
        ["X", "Y"] []).1 "Y" = false) := by
  refine ⟨?_, ?_, ?_, ?_⟩
  · intro j hmem hany
    rw [restore_mapGet, if_pos ⟨hmem, hany⟩]
  · intro j hany
    rw [restore_mapGet, if_neg ?hk]
    case hk =>
      rintro ⟨_, h2⟩
      rw [hany] at h2
      exact Bool.false_ne_true h2
  · decide
  · decide

/-- Witness for C7 applied at the concrete registry {"X"} and saved list
["X","Y"]. -/
theorem restore_marks_known_ids_witness :
    "X" ∈ ["X", "Y"] ∧
    ([{ id := "X", name := "Mic X" }] : List Device).any
      (fun d => d.id == "X") = true ∧
    mapGet (loadAndApplyDeviceStates [{ id := "X", name := "Mic X" }]
      ["X", "Y"] []).1 "X" = true :=
  ⟨by decide, by decide,
    (restore_marks_known_ids [{ id := "X", name := "Mic X" }]
      ["X", "Y"] []).1 "X" (by decide) (by decide)⟩

theorem load_of_save (ids : List String) :
    loadCheckedDevices (saveCheckedDevices ids) = ids := by
  rw [saveCheckedDevices]
  by_cases he : ids.isEmpty
  · rw [if_pos he, loadCheckedDevices]
    exact (List.isEmpty_iff.mp he).symm
  · rw [if_neg he, loadCheckedDevices]

/-- C5: after a successful Save the persisted id list holds exactly the ids
whose monitored flag is true, and the round trip — Save the current set,
Load it back, Restore it into a fresh store — reproduces the original
monitored set restricted to ids still present in the device registry. -/
theorem save_load_restore_round_trip (devices : List Device)
    (m : DeviceStates) (hnd : keysNodup m) :
    (∀ j, j ∈ loadCheckedDevices (saveCheckedDevices (saveDeviceStates m)) ↔
      mapGet m j = true) ∧
    (∀ j, mapGet (loadAndApplyDeviceStates devices
        (loadCheckedDevices (saveCheckedDevices (saveDeviceStates m)))
        []).1 j =
      (mapGet m j && devices.any (fun d => d.id == j))) := by
  constructor
  · intro j
    rw [load_of_save]
    exact mem_saveDeviceStates m j hnd
  · intro j
    rw [load_of_save, restore_mapGet]
    by_cases hj : j ∈ saveDeviceStates m ∧
        devices.any (fun d => d.id == j) = true
    · rw [if_pos hj, (mem_saveDeviceStates m j hnd).mp hj.1, hj.2]
      rfl
    · rw [if_neg hj]
      cases hmg : mapGet m j
      · rfl
      · cases hany : devices.any (fun d => d.id == j)
        · rfl
        · exact absurd ⟨(mem_saveDeviceStates m j hnd).mpr hmg, hany⟩ hj

/-- Witness for C5 with "A" monitored, "B" unmonitored, and a registry that
still has "A". -/
theorem save_load_restore_round_trip_witness :
    keysNodup [("A", true), ("B", false)] ∧
    mapGet (loadAndApplyDeviceStates [{ id := "A", name := "Mic A" }]
      (loadCheckedDevices (saveCheckedDevices
        (saveDeviceStates [("A", true), ("B", false)]))) []).1 "A" =
      (mapGet [("A", true), ("B", false)] "A" &&
        ([{ id := "A", name := "Mic A" }] : List Device).any
          (fun d => d.id == "A")) :=
  ⟨by decide,
    (save_load_restore_round_trip [{ id := "A", name := "Mic A" }]
      [("A", true), ("B", false)] (by decide)).2 "A"⟩

/-! ### Reading the input level -/

/-- C10: whenever `getSystemInputLevel` succeeds, the returned percentage
lies in 0..100 (the scaled scalar is clamped into bounds); and for every
successfully readable volume setting (scalar ≥ 0), a muted device reads as
exactly 0 with no error, whatever that setting is. -/
theorem getSystemInputLevel_range_and_mute (v : ℚ) (ms : Int) :
    (∀ n, getSystemInputLevel v ms = .ok n → 0 ≤ n ∧ n ≤ 100) ∧
    (0 ≤ v → ms = 1 → getSystemInputLevel v ms = .ok 0) := by
  constructor
  · intro n h
    rw [getSystemInputLevel] at h
    by_cases h1 : v < 0
    · rw [if_pos h1] at h
      exact absurd h (by simp)
    · rw [if_neg h1] at h
      by_cases h2 : ms = 1
      · rw [if_pos h2] at h
        simp only [Except.ok.injEq] at h
        omega
      · rw [if_neg h2] at h
        simp only [Except.ok.injEq] at h
        split at h
        · omega
        · split at h <;> omega
  · intro hv hm
    rw [getSystemInputLevel, if_neg (not_lt.mpr hv), if_pos hm]

/-- Witness for C10: a muted device whose volume setting reads 3/4 yields
Ok 0. -/
theorem getSystemInputLevel_range_and_mute_witness :
    (0 : ℚ) ≤ 3 / 4 ∧ (1 : Int) = 1 ∧
    getSystemInputLevel (3 / 4) 1 = .ok 0 :=
  ⟨by norm_num, rfl,
    (getSystemInputLevel_range_and_mute (3 / 4) 1).2 (by norm_num) rfl⟩
